import Mathlib

/-!
Shallow embedding of the `ask-exact` intent/filter core:
`src/ask/code/intent.py` (Op, Filter, Intent: serialization, validation,
OData rendering) and `src/ask/code/exact_toolbox.py` (tool registry,
endpoint resolution, dispatch).  Machine integers are modelled as `Int`,
Python `None`-able slots as `Option`, raised exceptions as `Except.error`.
-/

namespace AskExact

/-- Python `str.lower` restricted to ASCII letters (registry keys are ASCII). -/
def lowerChar (c : Char) : Char :=
  if 65 ≤ c.toNat ∧ c.toNat ≤ 90 then Char.ofNat (c.toNat + 32) else c

/-- Python `str.lower` on a string, character-wise. -/
def pyLower (s : String) : String := ⟨s.data.map lowerChar⟩

/-- Fuel-driven core of Python `str.replace`: replaces non-overlapping
occurrences of `pat` left to right (pattern is nonempty at every call site). -/
def replaceFuel (pat rep : List Char) : Nat → List Char → List Char
  | 0, s => s
  | _ + 1, [] => []
  | fuel + 1, c :: rest =>
    if pat.isPrefixOf (c :: rest) && !pat.isEmpty then
      rep ++ replaceFuel pat rep fuel (List.drop (pat.length - 1) rest)
    else
      c :: replaceFuel pat rep fuel rest

/-- Python `s.replace(pat, rep)` for nonempty `pat`. -/
def pyReplace (s pat rep : String) : String :=
  ⟨replaceFuel pat.data rep.data s.data.length s.data⟩

/-- UTF-8 encoding of one Unicode code point, as byte values. -/
def utf8Bytes (n : Nat) : List Nat :=
  if n < 0x80 then [n]
  else if n < 0x800 then [0xC0 + n / 0x40, 0x80 + n % 0x40]
  else if n < 0x10000 then
    [0xE0 + n / 0x1000, 0x80 + (n / 0x40) % 0x40, 0x80 + n % 0x40]
  else
    [0xF0 + n / 0x40000, 0x80 + (n / 0x1000) % 0x40, 0x80 + (n / 0x40) % 0x40, 0x80 + n % 0x40]

/-- Bytes `urllib.parse.quote` leaves unencoded with the default `safe = "/"`:
ASCII alphanumerics, `_ . - ~`, and `/`. -/
def isSafeByte (b : Nat) : Bool :=
  (65 ≤ b && b ≤ 90) || (97 ≤ b && b ≤ 122) || (48 ≤ b && b ≤ 57) ||
    b == 95 || b == 46 || b == 45 || b == 126 || b == 47

/-- Uppercase hex digit, as `urllib.parse.quote` emits. -/
def hexChar (n : Nat) : Char := if n < 10 then Char.ofNat (48 + n) else Char.ofNat (55 + n)

/-- Percent-encode one byte unless it is safe. -/
def encodeByte (b : Nat) : List Char :=
  if isSafeByte b then [Char.ofNat b] else ['%', hexChar (b / 16), hexChar (b % 16)]

/-- `urllib.parse.quote(s)` with default safe characters: UTF-8 encode, then
percent-encode every unsafe byte with uppercase hex. -/
def pyQuote (s : String) : String :=
  ⟨(s.data.flatMap (fun c => utf8Bytes c.toNat)).flatMap encodeByte⟩

/-- Lexicographic code-point comparison on character lists (Python string
`<=`). -/
def leChars : List Char → List Char → Bool
  | [], _ => true
  | _ :: _, [] => false
  | a :: as, b :: bs =>
    if a.toNat < b.toNat then true
    else if b.toNat < a.toNat then false
    else leChars as bs

/-- Python string comparison `a <= b` (lexicographic by code point). -/
def pyStrLe (a b : String) : Bool := leChars a.data b.data

/-- Insert a string into an ascending list, keeping it ascending (stable). -/
def insertAsc (x : String) : List String → List String
  | [] => [x]
  | y :: ys => if pyStrLe x y then x :: y :: ys else y :: insertAsc x ys

/-- Python `sorted` on a list of strings (ascending insertion sort). -/
def sortStrings : List String → List String
  | [] => []
  | x :: xs => insertAsc x (sortStrings xs)

/-- Matching attempt for Python `s.startswith(pre)` / prefix stripping:
`some rest` when `pre` is a prefix, with `rest` the remainder. -/
def dropPreChars : List Char → List Char → Option (List Char)
  | [], s => some s
  | _ :: _, [] => none
  | p :: ps, c :: cs => if p = c then dropPreChars ps cs else none

/-- Python `s.startswith(pre)`. -/
def hasPre (s pre : String) : Bool := (dropPreChars pre.data s.data).isSome

/-- `s[len(pre):]` when `pre` is a prefix of `s` (identity otherwise). -/
def dropPre (s pre : String) : String :=
  match dropPreChars pre.data s.data with
  | some r => ⟨r⟩
  | none => s

/-- Python `s.lstrip("/")`: remove ALL leading slashes. -/
def lstripSlashes (s : String) : String := ⟨s.data.dropWhile (fun c => c = '/')⟩

/-- Python f-string rendering of an `Optional[str]`. -/
def fstr : Option String → String
  | some s => s
  | none => "None"

/-- The `Primitive` union of `intent.py`: `str | int | float | bool | date |
datetime`.  Floats are carried as the decimal text `str()` produces for them;
date/datetime values are carried as their `isoformat()` text. -/
inductive Primitive where
  | pstr (s : String)
  | pint (n : Int)
  | pfloat (text : String)
  | pbool (b : Bool)
  | pdate (iso : String)
deriving DecidableEq, Repr

/-- The `Op` enumeration of `intent.py`. -/
inductive Op where
  | eq | ne | gt | ge | lt | le
  | IN
  | contains | startswith | endswith
  | is_null | is_not_null
deriving DecidableEq, Repr

/-- The `.value` string token of each `Op` member. -/
def Op.value : Op → String
  | .eq => "eq"
  | .ne => "ne"
  | .gt => "gt"
  | .ge => "ge"
  | .lt => "lt"
  | .le => "le"
  | .IN => "in"
  | .contains => "contains"
  | .startswith => "startswith"
  | .endswith => "endswith"
  | .is_null => "is_null"
  | .is_not_null => "is_not_null"

/-- `Op(tok)` enum lookup: `some` member with that token, else `none`
(Python raises `ValueError`). -/
def Op.ofString : String → Option Op
  | "eq" => some .eq
  | "ne" => some .ne
  | "gt" => some .gt
  | "ge" => some .ge
  | "lt" => some .lt
  | "le" => some .le
  | "in" => some .IN
  | "contains" => some .contains
  | "startswith" => some .startswith
  | "endswith" => some .endswith
  | "is_null" => some .is_null
  | "is_not_null" => some .is_not_null
  | _ => none

/-- The `Filter` dataclass: plain fields with `None` defaults, no
constructor-side checking. -/
structure Filter where
  field : String
  op : Op
  value : Option Primitive := none
  values : Option (List Primitive) := none
deriving DecidableEq, Repr

/-- Wire form of one filter (`Filter.to_dict` output / `from_dict` input):
a dict with mandatory `field`/`op` keys and `value`/`values` keys that are
present iff the `Option` is `some` (the code never emits a null value). -/
structure FilterDict where
  field : String
  op : String
  value : Option Primitive := none
  values : Option (List Primitive) := none
deriving DecidableEq, Repr

/-- `Filter.to_dict`: always emits `field` and the op token, and emits
`value` / `values` only when they are not `None`. -/
def Filter.to_dict (f : Filter) : FilterDict :=
  { field := f.field, op := f.op.value, value := f.value, values := f.values }

/-- One step of `Intent.from_dict`'s filter loop: `Filter(field=..., op=Op(...),
value=f.get("value"), values=f.get("values"))`; an unknown op token raises. -/
def Filter.from_dict (d : FilterDict) : Except String Filter :=
  match Op.ofString d.op with
  | some o => .ok { field := d.field, op := o, value := d.value, values := d.values }
  | none => .error ("'" ++ d.op ++ "' is not a valid Op")

/-- The `Intent` class: tool name, description, ordered filters, and the
membership rendering-mode flag (`use_in`, default `True`). -/
structure Intent where
  tool_call : Option String := none
  description : Option String := none
  filters : List Filter := []
  use_in : Bool := true
deriving DecidableEq, Repr

/-- Wire form of an Intent (`Intent.to_dict` output / `from_dict` input). -/
structure IntentDict where
  tool_call : Option String
  description : Option String
  filters : List FilterDict
  odata_filter : String
deriving DecidableEq, Repr

/-- The inner `_q` of `Intent._render_filter`: `bool` before `int`/`float`,
then `date`/`datetime` (isoformat with `+00:00` replaced by `Z`), then the
single-quoted string form with embedded quotes doubled. -/
def q : Primitive → String
  | .pbool b => if b then "true" else "false"
  | .pint n => toString n
  | .pfloat text => text
  | .pdate iso => pyReplace iso "+00:00" "Z"
  | .pstr s => "'" ++ pyReplace s "'" "''" ++ "'"

/-- `_q` applied to a possibly-`None` slot: Python's `str(None)` is `"None"`,
so a missing value renders as the quoted string `'None'`. -/
def qOpt : Option Primitive → String
  | some v => q v
  | none => "'None'"

/-- `Intent._render_filter`, with the instance's `_use_in` flag passed
explicitly.  Iterating `f.values` when it is `None` raises `TypeError`. -/
def Intent.render_filter (use_in : Bool) (f : Filter) : Except String String :=
  if f.op ∈ [Op.eq, Op.ne, Op.gt, Op.ge, Op.lt, Op.le] then
    .ok (f.field ++ " " ++ f.op.value ++ " " ++ qOpt f.value)
  else if f.op = Op.IN then
    match f.values with
    | none => .error "TypeError: 'NoneType' object is not iterable"
    | some vs =>
      if use_in then
        .ok (f.field ++ " in (" ++ String.intercalate ", " (vs.map q) ++ ")")
      else
        .ok ("(" ++ String.intercalate " or " (vs.map (fun v => f.field ++ " eq " ++ q v)) ++ ")")
  else if f.op ∈ [Op.contains, Op.startswith, Op.endswith] then
    .ok (f.op.value ++ "(" ++ f.field ++ ", " ++ qOpt f.value ++ ")")
  else if f.op = Op.is_null then
    .ok (f.field ++ " eq null")
  else if f.op = Op.is_not_null then
    .ok (f.field ++ " ne null")
  else
    .error ("Unsupported operator: " ++ f.op.value)

/-- The list comprehension `[self._render_filter(f) for f in self.filters]`:
renders in order, first raise wins. -/
def renderParts (use_in : Bool) : List Filter → Except String (List String)
  | [] => .ok []
  | f :: fs =>
    match Intent.render_filter use_in f with
    | .error m => .error m
    | .ok p =>
      match renderParts use_in fs with
      | .error m => .error m
      | .ok ps => .ok (p :: ps)

/-- `Intent.to_odata_filter_url`: empty string with no filters, otherwise
each part parenthesized, joined with " and ", percent-encoded, and prefixed
with `?$filter=`. -/
def Intent.to_odata_filter_url (i : Intent) : Except String String :=
  if i.filters.isEmpty then .ok ""
  else
    match renderParts i.use_in i.filters with
    | .error m => .error m
    | .ok parts =>
      .ok ("?$filter=" ++ pyQuote (String.intercalate " and " (parts.map (fun p => "(" ++ p ++ ")"))))

/-- `Intent.to_dict`: echoes the fields and freshly recomputes the compiled
filter fragment (whose rendering may raise). -/
def Intent.to_dict (i : Intent) : Except String IntentDict :=
  match i.to_odata_filter_url with
  | .error m => .error m
  | .ok od =>
    .ok { tool_call := i.tool_call, description := i.description,
          filters := i.filters.map Filter.to_dict, odata_filter := od }

/-- The filter loop of `Intent.from_dict` over `data.get("filters", [])`. -/
def filtersFromDicts : List FilterDict → Except String (List Filter)
  | [] => .ok []
  | d :: ds =>
    match Filter.from_dict d with
    | .error m => .error m
    | .ok f =>
      match filtersFromDicts ds with
      | .error m => .error m
      | .ok fs => .ok (f :: fs)

/-- `Intent.from_dict`: reads `tool_call`/`description`/`filters` and builds
the Intent with the constructor's default rendering mode (`use_in = True`). -/
def Intent.from_dict (d : IntentDict) : Except String Intent :=
  match filtersFromDicts d.filters with
  | .error m => .error m
  | .ok filters =>
    .ok { tool_call := d.tool_call, description := d.description,
          filters := filters, use_in := true }

/-- One registry entry as `_generate_tools` builds it: lower-cased name,
assembled description, data summary, field-schema keys, and the
`endpoint_info` URI template (possibly absent). -/
structure Tool where
  name : String
  description : String
  data_summary : String
  fields : List String
  uri : Option String
deriving DecidableEq, Repr

/-- One entry of the external `TOOL_DOCUMENTATION.json` catalog, already
parsed: endpoint key, documentation strings, field-schema keys, URI. -/
structure CatalogEntry where
  key : String
  llm_description : String
  llm_keywords : List String
  llm_data_info : String
  fields : List String
  uri : Option String
deriving DecidableEq, Repr

/-- `ExactToolbox._generate_tools`: one tool per catalog entry, with the
lower-cased endpoint key as name and the keyword-joined description. -/
def generate_tools (docs : List CatalogEntry) : List Tool :=
  docs.map (fun e =>
    { name := pyLower e.key,
      description := e.llm_description ++ "\n\nKeywords: " ++ String.intercalate ", " e.llm_keywords,
      data_summary := e.llm_data_info,
      fields := e.fields,
      uri := e.uri })

/-- The structured failures `Intent.validate` can return (it returns a dict
or `None`; each constructor carries that dict's keys). -/
inductive ValidationError where
  | missingTool (error : String)
  | unknownTool (error : String) (available_tools : List String) (requested_tool : String)
  | invalidFields (error : String) (invalid_fields : List String)
      (available_fields : List String) (endpoint : String)
deriving DecidableEq, Repr

/-- The offending-fields loop of `Intent.validate`: every filter's field, in
filter order (duplicates kept), that is not a key of the tool's schema. -/
def invalidFieldsOf (filters : List Filter) (fields : List String) : List String :=
  (filters.map Filter.field).filter (fun f => decide (f ∉ fields))

/-- `Intent.validate` against a toolbox's tool list: missing tool_call, then
unknown tool (with the full tool-name list), then invalid filter fields
(with every offending field and the sorted field list), else `None`. -/
def Intent.validate (i : Intent) (tools : List Tool) : Option ValidationError :=
  match i.tool_call with
  | none => some (.missingTool "Intent is missing tool_call")
  | some tc =>
    if tc = "" then some (.missingTool "Intent is missing tool_call")
    else
      let available_tools := tools.map Tool.name
      if tc ∈ available_tools then
        match tools.find? (fun t => t.name == tc) with
        | none => none
        | some tool_config =>
          if i.filters = [] then none
          else
            if invalidFieldsOf i.filters tool_config.fields = [] then none
            else
              some (.invalidFields
                ("Invalid field name(s): " ++
                  String.intercalate ", " (invalidFieldsOf i.filters tool_config.fields) ++
                  ". Available fields for this endpoint are: " ++
                  String.intercalate ", " (sortStrings tool_config.fields.dedup))
                (invalidFieldsOf i.filters tool_config.fields)
                (sortStrings tool_config.fields.dedup)
                tool_config.name)
      else
        some (.unknownTool
          ("Tool '" ++ tc ++ "' not found. Available tools are: " ++
            String.intercalate ", " available_tools)
          available_tools tc)

/-- `ExactToolbox.get_tool_details_for_llm`: the first tool whose name equals
the requested name, else the sentinel string `"Tool not found."`. -/
def get_tool_details_for_llm (tools : List Tool) (tool_name : String) : Tool ⊕ String :=
  match tools.find? (fun t => t.name == tool_name) with
  | some t => .inl t
  | none => .inr "Tool not found."

/-- The literal prefix `get_clean_endpoint` strips from URI templates. -/
def api_v1_pre : String := "/api/v1/{division}/"

/-- `ExactToolbox.get_clean_endpoint`: find the tool by the intent's
tool_call, fail loudly when the tool or its URI is missing/empty, strip the
division prefix when present, else strip all leading slashes (`lstrip("/")`). -/
def get_clean_endpoint (tools : List Tool) (intent : Intent) : Except String String :=
  match tools.find? (fun t => some t.name == intent.tool_call) with
  | none => .error ("Tool '" ++ fstr intent.tool_call ++ "' not found")
  | some tool_config =>
    match tool_config.uri with
    | none => .error ("API URI not found for endpoint: " ++ fstr intent.tool_call)
    | some api_uri =>
      if api_uri = "" then .error ("API URI not found for endpoint: " ++ fstr intent.tool_call)
      else if hasPre api_uri api_v1_pre then .ok (dropPre api_uri api_v1_pre)
      else .ok (lstripSlashes api_uri)

/-- `ExactToolbox.get_url`: cleaned endpoint plus the compiled filter
fragment when non-empty. -/
def get_url (tools : List Tool) (intent : Intent) : Except String String :=
  match get_clean_endpoint tools intent with
  | .error m => .error m
  | .ok api_endpoint =>
    match intent.to_odata_filter_url with
    | .error m => .error m
    | .ok filter_url =>
      if filter_url ≠ "" then .ok (api_endpoint ++ filter_url) else .ok api_endpoint

/-- Outcome of `get_service(session_key)` + `service.get(endpoint)`: an HTTP
response (status, `json()` outcome, `text`) or a raised exception. -/
inductive NetOutcome where
  | response (status_code : Nat) (jsonResult : Except String String) (text : String)
  | raises (msg : String)

/-- The normalized result shapes `ExactToolbox.execute` returns. -/
inductive ExecuteResult where
  | validation_error (e : ValidationError)
  | success (data : String) (intent : IntentDict) (endpoint : String) (filters_applied : Bool)
  | api_error (error : String) (details : String) (endpoint : String)
  | execution_failed (error : String) (intent : IntentDict) (endpoint : Option String)
deriving Repr

/-- The `try` body of `ExactToolbox.execute`; an error carries the raised
message and the endpoint if `api_endpoint` was already assigned. -/
def executeTry (tools : List Tool) (net : String → NetOutcome) (i : Intent) :
    Except (String × Option String) ExecuteResult :=
  match get_url tools i with
  | .error m => .error (m, none)
  | .ok api_endpoint =>
    match net api_endpoint with
    | .raises m => .error (m, some api_endpoint)
    | .response status_code jsonResult text =>
      if status_code = 200 then
        match jsonResult with
        | .error m => .error (m, some api_endpoint)
        | .ok data =>
          match i.to_dict with
          | .error m => .error (m, some api_endpoint)
          | .ok d => .ok (.success data d api_endpoint (!i.filters.isEmpty))
      else
        .ok (.api_error ("API call failed with status " ++ toString status_code) text api_endpoint)

/-- `ExactToolbox.execute`: validate first; run the try body; on a caught
exception build the structured error — whose `intent.to_dict()` echo can
itself raise, escaping the handler (`Except.error` models that escape). -/
def execute (tools : List Tool) (net : String → NetOutcome) (i : Intent) :
    Except String ExecuteResult :=
  match i.validate tools with
  | some e => .ok (.validation_error e)
  | none =>
    match executeTry tools net i with
    | .ok r => .ok r
    | .error (msg, ep) =>
      match i.to_dict with
      | .ok d => .ok (.execution_failed ("Execution failed: " ++ msg) d ep)
      | .error m2 => .error m2

/-! Shared helper lemmas. -/

theorem filter_roundtrip (f : Filter) : Filter.from_dict f.to_dict = .ok f := by
  cases f with
  | mk field op value values => cases op <;> rfl

theorem filtersFromDicts_roundtrip (fs : List Filter) :
    filtersFromDicts (fs.map Filter.to_dict) = .ok fs := by
  induction fs with
  | nil => rfl
  | cons f fs ih => simp [filtersFromDicts, filter_roundtrip, ih]

/-! Concrete registry and intents used by several claims. -/

/-- Registry tool for the end-to-end scenario: name `invoices`, field schema
keys `status` and `amount`. -/
def invoicesTool : Tool :=
  { name := "invoices",
    description := "Invoice list\n\nKeywords: invoice, billing",
    data_summary := "sales invoices",
    fields := ["status", "amount"],
    uri := some "/api/v1/{division}/crm/Invoices" }

/-- The end-to-end Intent of the scenario: two filters, `status eq open`
and `amount gt 1000`. -/
def c1_intent : Intent :=
  { tool_call := some "invoices", description := none,
    filters := [ { field := "status", op := .eq, value := some (.pstr "open") },
                 { field := "amount", op := .gt, value := some (.pint 1000) } ],
    use_in := true }

/-! C1 -/

/-- C1: with a registry containing tool `invoices` (fields `status`,
`amount`), the scenario Intent validates with no failure and compiles to
exactly `?$filter=%28status%20eq%20%27open%27%29%20and%20%28amount%20gt%201000%29`;
in general any two-filter Intent compiles each filter to its own
parenthesized sub-expression, joined with " and " in input order,
percent-encoded, prefixed with `?$filter=`. -/
theorem c1_end_to_end :
    c1_intent.validate [invoicesTool] = none ∧
    c1_intent.to_odata_filter_url =
      .ok "?$filter=%28status%20eq%20%27open%27%29%20and%20%28amount%20gt%201000%29" ∧
    (∀ (i : Intent) (f1 f2 : Filter) (r1 r2 : String),
      i.filters = [f1, f2] →
      Intent.render_filter i.use_in f1 = .ok r1 →
      Intent.render_filter i.use_in f2 = .ok r2 →
      i.to_odata_filter_url =
        .ok ("?$filter=" ++ pyQuote ("(" ++ r1 ++ ")" ++ " and " ++ "(" ++ r2 ++ ")"))) := by
  refine ⟨rfl, rfl, ?_⟩
  intro i f1 f2 r1 r2 hf h1 h2
  have e : renderParts i.use_in [f1, f2] = .ok [r1, r2] := by
    simp [renderParts, h1, h2]
  have two : ∀ s a b : String, String.intercalate s [a, b] = a ++ s ++ b := fun s a b => rfl
  unfold Intent.to_odata_filter_url
  rw [hf]
  simp [e, two, String.append_assoc]
  rw [show (") and (" : String) = ") and " ++ "(" from rfl, String.append_assoc]

/-- C1 witness: the general two-filter conjunct applied to the scenario's
own filters yields the scenario's encoded string. -/
theorem c1_witness :
    c1_intent.to_odata_filter_url =
      .ok ("?$filter=" ++ pyQuote ("(" ++ "status eq 'open'" ++ ")" ++ " and " ++
        "(" ++ "amount gt 1000" ++ ")")) :=
  c1_end_to_end.2.2 c1_intent
    { field := "status", op := .eq, value := some (.pstr "open") }
    { field := "amount", op := .gt, value := some (.pint 1000) }
    "status eq 'open'" "amount gt 1000" rfl rfl rfl

/-! C2 -/

/-- C2: the value-quoting function renders booleans bare, ints and floats
as bare decimal text, date/times as ISO-8601 text with `+00:00` normalized
to `Z`, and everything else single-quoted with embedded quotes doubled;
`O'Brien` becomes `'O''Brien'` and `true` stays bare. -/
theorem c2_value_quoting :
    (∀ b : Bool, q (.pbool b) = (if b then "true" else "false")) ∧
    (∀ n : Int, q (.pint n) = toString n) ∧
    (∀ text : String, q (.pfloat text) = text) ∧
    (∀ iso : String, q (.pdate iso) = pyReplace iso "+00:00" "Z") ∧
    (∀ s : String, q (.pstr s) = "'" ++ pyReplace s "'" "''" ++ "'") ∧
    q (.pstr "O'Brien") = "'O''Brien'" ∧
    q (.pdate "2025-01-01T00:00:00+00:00") = "2025-01-01T00:00:00Z" ∧
    q (.pbool true) = "true" ∧
    q (.pbool true) ≠ "'true'" := by
  refine ⟨fun b => rfl, fun n => rfl, fun t => rfl, fun s => rfl, fun s => rfl,
    by decide, by decide, rfl, by decide⟩

/-! C5 -/

/-- C5: a membership filter renders as `field in (v1, v2, ...)` in native
mode and as the OR-chain `(field eq v1 or field eq v2 or ...)` in fallback
mode, over the same quoted values in the same order; concretely
`status in ('open', 'paid')` versus `(status eq 'open' or status eq 'paid')`. -/
theorem c5_membership_rendering :
    (∀ (field : String) (v : Option Primitive) (vs : List Primitive),
      Intent.render_filter true { field := field, op := .IN, value := v, values := some vs } =
        .ok (field ++ " in (" ++ String.intercalate ", " (vs.map q) ++ ")")) ∧
    (∀ (field : String) (v : Option Primitive) (vs : List Primitive),
      Intent.render_filter false { field := field, op := .IN, value := v, values := some vs } =
        .ok ("(" ++ String.intercalate " or " (vs.map (fun w => field ++ " eq " ++ q w)) ++ ")")) ∧
    Intent.render_filter true
        { field := "status", op := .IN, values := some [.pstr "open", .pstr "paid"] } =
      .ok "status in ('open', 'paid')" ∧
    Intent.render_filter false
        { field := "status", op := .IN, values := some [.pstr "open", .pstr "paid"] } =
      .ok "(status eq 'open' or status eq 'paid')" := by
  refine ⟨fun field v vs => rfl, fun field v vs => rfl, rfl, rfl⟩

/-! C9 -/

/-- C9 counterexample: a membership Filter carrying no `values` is accepted
by `from_dict` (the dataclass is likewise directly constructible with any
combination), so an invariant-violating Filter is not rejected. -/
theorem c9_counterexample :
    Filter.from_dict { field := "x", op := "in" } =
      .ok { field := "x", op := Op.IN, value := none, values := none } ∧
    ({ field := "x", op := Op.IN, value := none, values := none } : Filter).values = none :=
  ⟨rfl, rfl⟩

/-- C9 amended: Filter construction performs no value/values invariant
checking; `from_dict` rejects exactly the operator tokens outside the `Op`
enumeration and otherwise preserves field, value and values as supplied. -/
theorem c9_no_construction_validation (d : FilterDict) :
    (∀ o : Op, Op.ofString d.op = some o →
      Filter.from_dict d =
        .ok { field := d.field, op := o, value := d.value, values := d.values }) ∧
    (Op.ofString d.op = none →
      Filter.from_dict d = .error ("'" ++ d.op ++ "' is not a valid Op")) := by
  constructor
  · intro o ho; simp [Filter.from_dict, ho]
  · intro ho; simp [Filter.from_dict, ho]

/-- C9 witness: the amended theorem applied at a concrete well-formed wire
filter. -/
theorem c9_witness :
    Filter.from_dict { field := "status", op := "eq", value := some (.pstr "open") } =
      .ok { field := "status", op := Op.eq, value := some (.pstr "open"), values := none } :=
  (c9_no_construction_validation ⟨"status", "eq", some (.pstr "open"), none⟩).1 Op.eq rfl

/-! C10 -/

/-- Intent in OR-chain rendering mode with one membership filter. -/
def c10_intent : Intent :=
  { tool_call := some "invoices", description := none,
    filters := [ { field := "status", op := .IN, values := some [.pstr "open", .pstr "paid"] } ],
    use_in := false }

/-- The wire form `c10_intent.to_dict` produces (OR-chain compiled fragment,
no rendering-mode key). -/
def c10_dict : IntentDict :=
  { tool_call := some "invoices", description := none,
    filters := [ { field := "status", op := "in",
                   values := some [.pstr "open", .pstr "paid"] } ],
    odata_filter := "?$filter=%28%28status%20eq%20%27open%27%20or%20status%20eq%20%27paid%27%29%29" }

/-- C10: the rendering-mode flag is not part of the wire form — `from_dict`
always yields the default native mode — so round-tripping an OR-mode Intent
holding a membership filter changes the compiled filter expression from the
OR-chain form to the native `in` form. -/
theorem c10_mode_not_serialized :
    (∀ (d : IntentDict) (i : Intent), Intent.from_dict d = .ok i → i.use_in = true) ∧
    c10_intent.use_in = false ∧
    c10_intent.to_dict = .ok c10_dict ∧
    Intent.from_dict c10_dict =
      .ok { tool_call := some "invoices", description := none,
            filters := c10_intent.filters, use_in := true } ∧
    c10_intent.to_odata_filter_url =
      .ok "?$filter=%28%28status%20eq%20%27open%27%20or%20status%20eq%20%27paid%27%29%29" ∧
    ({ tool_call := some "invoices", description := none,
       filters := c10_intent.filters, use_in := true } : Intent).to_odata_filter_url =
      .ok "?$filter=%28status%20in%20%28%27open%27%2C%20%27paid%27%29%29" ∧
    ("?$filter=%28%28status%20eq%20%27open%27%20or%20status%20eq%20%27paid%27%29%29" : String) ≠
      "?$filter=%28status%20in%20%28%27open%27%2C%20%27paid%27%29%29" := by
  refine ⟨?_, rfl, rfl, rfl, rfl, rfl, by decide⟩
  intro d i h
  unfold Intent.from_dict at h
  cases hf : filtersFromDicts d.filters with
  | error m => rw [hf] at h; cases h
  | ok fs => rw [hf] at h; cases h; rfl

/-- C10 witness: the universally quantified conjunct applied to the concrete
round-tripped wire form. -/
theorem c10_witness :
    ({ tool_call := some "invoices", description := none,
       filters := c10_intent.filters, use_in := true } : Intent).use_in = true :=
  c10_mode_not_serialized.1 c10_dict _ c10_mode_not_serialized.2.2.2.1

/-! C4 -/

/-- Intent that passes validation (field `status` is in the schema) but whose
membership filter carries no `values`, so rendering raises `TypeError`. -/
def c4_intent : Intent :=
  { tool_call := some "invoices", description := none,
    filters := [ { field := "status", op := .IN } ], use_in := true }

/-- C4 at the failing input: validation passes, the filter rendering raises
inside the `try` body, and the `except` handler's `intent.to_dict()` echo
raises the same `TypeError` again — the fault escapes `execute` instead of
being returned as structured data. -/
theorem c4_fault_escapes_dispatcher :
    c4_intent.validate [invoicesTool] = none ∧
    execute [invoicesTool] (fun _ => .raises "connection error") c4_intent =
      .error "TypeError: 'NoneType' object is not iterable" :=
  ⟨rfl, rfl⟩

/-! C3 -/

/-- C3: `Intent.validate` checks in order and short-circuits, always
returning structured data: a missing/empty tool_call yields the missing-tool
failure; an unknown tool yields a failure carrying the full registered name
list; a known tool with filter fields outside its schema yields a failure
naming every offending field (in filter order) plus the full sorted field
list; otherwise no failure. -/
theorem c3_validate_checks (i : Intent) (tools : List Tool) :
    ((i.tool_call = none ∨ i.tool_call = some "") →
      i.validate tools = some (.missingTool "Intent is missing tool_call")) ∧
    (∀ tc : String, i.tool_call = some tc → tc ≠ "" → tc ∉ tools.map Tool.name →
      i.validate tools = some (.unknownTool
        ("Tool '" ++ tc ++ "' not found. Available tools are: " ++
          String.intercalate ", " (tools.map Tool.name))
        (tools.map Tool.name) tc)) ∧
    (∀ (tc : String) (cfg : Tool), i.tool_call = some tc → tc ≠ "" →
      tools.find? (fun t => t.name == tc) = some cfg →
      (invalidFieldsOf i.filters cfg.fields = [] →
        i.validate tools = none) ∧
      (invalidFieldsOf i.filters cfg.fields ≠ [] →
        i.validate tools = some (.invalidFields
          ("Invalid field name(s): " ++
            String.intercalate ", " (invalidFieldsOf i.filters cfg.fields) ++
            ". Available fields for this endpoint are: " ++
            String.intercalate ", " (sortStrings cfg.fields.dedup))
          (invalidFieldsOf i.filters cfg.fields)
          (sortStrings cfg.fields.dedup) cfg.name))) := by
  refine ⟨?_, ?_, ?_⟩
  · rintro (h | h) <;> simp [Intent.validate, h]
  · intro tc htc hne hmem
    simp [Intent.validate, htc, hne, hmem]
  · intro tc cfg htc hne hfind
    have hcfg : cfg.name = tc := by
      have hp := List.find?_some hfind
      simpa using hp
    have hmem : tc ∈ tools.map Tool.name :=
      List.mem_map.mpr ⟨cfg, List.mem_of_find?_eq_some hfind, hcfg⟩
    constructor
    · intro hempty
      by_cases hfil : i.filters = []
      · simp [Intent.validate, htc, hne, hmem, hfind, hfil]
      · simp [Intent.validate, htc, hne, hmem, hfind, hfil, hempty]
    · intro hne2
      have hfil : i.filters ≠ [] := by
        intro h0
        apply hne2
        simp [invalidFieldsOf, h0]
      simp [Intent.validate, htc, hne, hmem, hfind, hfil, hne2]

/-- C3 witness: every branch of the validator exercised on the concrete
`invoices` registry. -/
theorem c3_witness :
    (Intent.mk none none [] true).validate [invoicesTool] =
      some (.missingTool "Intent is missing tool_call") ∧
    (Intent.mk (some "bogus") none [] true).validate [invoicesTool] =
      some (.unknownTool "Tool 'bogus' not found. Available tools are: invoices"
        ["invoices"] "bogus") ∧
    (Intent.mk (some "invoices") none [⟨"qty", .eq, some (.pint 1), none⟩] true).validate
        [invoicesTool] =
      some (.invalidFields
        "Invalid field name(s): qty. Available fields for this endpoint are: amount, status"
        ["qty"] ["amount", "status"] "invoices") ∧
    (Intent.mk (some "invoices") none [] true).validate [invoicesTool] = none := by
  refine ⟨?_, ?_, ?_, ?_⟩
  · exact (c3_validate_checks (Intent.mk none none [] true) [invoicesTool]).1 (Or.inl rfl)
  · exact (c3_validate_checks (Intent.mk (some "bogus") none [] true) [invoicesTool]).2.1
      "bogus" rfl (by decide) (by decide)
  · have h := ((c3_validate_checks
        (Intent.mk (some "invoices") none [⟨"qty", .eq, some (.pint 1), none⟩] true)
        [invoicesTool]).2.2 "invoices" invoicesTool rfl (by decide) rfl).2 (by decide)
    rw [h]
    rfl
  · exact ((c3_validate_checks (Intent.mk (some "invoices") none [] true) [invoicesTool]).2.2
      "invoices" invoicesTool rfl (by decide) rfl).1 rfl

/-! C6 -/

/-- C6: whenever serialization succeeds, `from_dict` of the wire form
reconstructs an Intent with identical tool_call, description and filter list
(order preserved); each filter's wire form carries its field and operator
token, and carries value/values exactly as present on the filter (an absent
component is an absent key, never a null). -/
theorem c6_round_trip (i : Intent) (d : IntentDict) (h : i.to_dict = .ok d) :
    Intent.from_dict d =
      .ok { tool_call := i.tool_call, description := i.description,
            filters := i.filters, use_in := true } ∧
    d.tool_call = i.tool_call ∧ d.description = i.description ∧
    d.filters = i.filters.map Filter.to_dict ∧
    ∀ f : Filter, (Filter.to_dict f).field = f.field ∧
      (Filter.to_dict f).op = f.op.value ∧
      (Filter.to_dict f).value = f.value ∧
      (Filter.to_dict f).values = f.values := by
  unfold Intent.to_dict at h
  cases hod : i.to_odata_filter_url with
  | error m => rw [hod] at h; cases h
  | ok od =>
    rw [hod] at h
    cases h
    refine ⟨?_, rfl, rfl, rfl, fun f => ⟨rfl, rfl, rfl, rfl⟩⟩
    simp [Intent.from_dict, filtersFromDicts_roundtrip]

/-- Intent with every serializable component populated, for the round-trip
witness. -/
def c6_intent : Intent :=
  { tool_call := some "invoices", description := some "open invoices",
    filters := [ { field := "status", op := .eq, value := some (.pstr "open") } ],
    use_in := true }

/-- The wire form `c6_intent.to_dict` produces. -/
def c6_dict : IntentDict :=
  { tool_call := some "invoices", description := some "open invoices",
    filters := [ { field := "status", op := "eq", value := some (.pstr "open") } ],
    odata_filter := "?$filter=%28status%20eq%20%27open%27%29" }

/-- C6 witness: the round-trip theorem applied at a concrete Intent whose
serialization is computed outright. -/
theorem c6_witness :
    Intent.from_dict c6_dict =
      .ok { tool_call := c6_intent.tool_call, description := c6_intent.description,
            filters := c6_intent.filters, use_in := true } ∧
    c6_dict.filters = c6_intent.filters.map Filter.to_dict :=
  ⟨(c6_round_trip c6_intent c6_dict rfl).1, (c6_round_trip c6_intent c6_dict rfl).2.2.2.1⟩

/-! C7 -/

/-- C7 counterexample: the registry stores the lower-cased name `invoices`;
supplying it as `Invoices` — equal after case normalization — is rejected by
validation, yields the sentinel from detail lookup, and fails path
resolution: lookups do not case-normalize the caller's name. -/
theorem c7_counterexample :
    generate_tools [⟨"Invoices", "Invoice list", ["invoice", "billing"], "sales invoices",
      ["status", "amount"], some "/api/v1/{division}/crm/Invoices"⟩] = [invoicesTool] ∧
    pyLower "Invoices" = "invoices" ∧
    (Intent.mk (some "Invoices") none [] true).validate [invoicesTool] =
      some (.unknownTool "Tool 'Invoices' not found. Available tools are: invoices"
        ["invoices"] "Invoices") ∧
    get_tool_details_for_llm [invoicesTool] "Invoices" = .inr "Tool not found." ∧
    get_clean_endpoint [invoicesTool] (Intent.mk (some "Invoices") none [] true) =
      .error "Tool 'Invoices' not found" :=
  ⟨rfl, rfl, rfl, rfl, rfl⟩

/-- C7 amended: lookups are by exact, case-sensitive match against the
stored (lower-cased) names: the exact stored name is accepted by validation,
returned by detail lookup, and resolved by path resolution (when its URI
template is present and non-empty); any non-matching name yields a
tool-not-found failure from path resolution and the sentinel result from
description lookup. -/
theorem c7_exact_name_lookup (tools : List Tool) (name : String) (t : Tool) (u : String)
    (hne : name ≠ "")
    (hfind : tools.find? (fun tl => tl.name == name) = some t)
    (hu : t.uri = some u) (hu2 : u ≠ "") :
    (Intent.mk (some name) none [] true).validate tools = none ∧
    get_tool_details_for_llm tools name = .inl t ∧
    get_clean_endpoint tools (Intent.mk (some name) none [] true) =
      .ok (if hasPre u api_v1_pre then dropPre u api_v1_pre else lstripSlashes u) ∧
    (∀ m : String, m ∉ tools.map Tool.name →
      get_clean_endpoint tools (Intent.mk (some m) none [] true) =
        .error ("Tool '" ++ m ++ "' not found") ∧
      get_tool_details_for_llm tools m = .inr "Tool not found.") := by
  have hmem : name ∈ tools.map Tool.name := by
    have hp := List.find?_some hfind
    exact List.mem_map.mpr ⟨t, List.mem_of_find?_eq_some hfind, by simpa using hp⟩
  refine ⟨?_, ?_, ?_, ?_⟩
  · simp [Intent.validate, hne, hmem, hfind]
  · simp [get_tool_details_for_llm, hfind]
  · by_cases hp : hasPre u api_v1_pre <;>
      simp [get_clean_endpoint, hfind, hu, hu2, hp]
  · intro m hm
    have hnone : tools.find? (fun tl : Tool => tl.name == m) = none := by
      rw [List.find?_eq_none]
      intro x hx hpx
      exact hm (List.mem_map.mpr ⟨x, hx, by simpa using hpx⟩)
    exact ⟨by simp [get_clean_endpoint, hnone, fstr], by simp [get_tool_details_for_llm, hnone]⟩

/-- C7 witness: the amended lookup contract at the concrete `invoices`
registry (both the matching and a non-matching name). -/
theorem c7_witness :
    (Intent.mk (some "invoices") none [] true).validate [invoicesTool] = none ∧
    get_tool_details_for_llm [invoicesTool] "invoices" = .inl invoicesTool ∧
    get_clean_endpoint [invoicesTool] (Intent.mk (some "something_else") none [] true) =
      .error "Tool 'something_else' not found" :=
  ⟨(c7_exact_name_lookup [invoicesTool] "invoices" invoicesTool
      "/api/v1/{division}/crm/Invoices" (by decide) rfl rfl (by decide)).1,
   (c7_exact_name_lookup [invoicesTool] "invoices" invoicesTool
      "/api/v1/{division}/crm/Invoices" (by decide) rfl rfl (by decide)).2.1,
   ((c7_exact_name_lookup [invoicesTool] "invoices" invoicesTool
      "/api/v1/{division}/crm/Invoices" (by decide) rfl rfl (by decide)).2.2.2
      "something_else" (by decide)).1⟩

/-! C8 -/

/-- Registry tool whose URI template starts with two slashes and no division
prefix. -/
def bulkTool : Tool :=
  { name := "bulk", description := "Bulk docs\n\nKeywords: bulk",
    data_summary := "bulk documents",
    fields := [], uri := some "//bulk/Documents" }

/-- C8 counterexample: for the stored template `//bulk/Documents` (division
prefix absent) path resolution returns `bulk/Documents` — `lstrip("/")`
removes every leading slash — not the claim's single-slash-stripped
`/bulk/Documents`. -/
theorem c8_counterexample :
    get_clean_endpoint [bulkTool] (Intent.mk (some "bulk") none [] true) =
      .ok "bulk/Documents" ∧
    ("bulk/Documents" : String) ≠ "/bulk/Documents" :=
  ⟨rfl, by decide⟩

/-- C8 amended: with the `/api/v1/{division}/` prefix present the prefix is
stripped; otherwise ALL leading slashes are removed (`lstrip("/")`), not just
a single one; a missing or empty URI template yields a loud failure, never a
default empty URI. -/
theorem c8_path_resolution (tools : List Tool) (i : Intent) (t : Tool)
    (hfind : tools.find? (fun tl => some tl.name == i.tool_call) = some t) :
    (∀ u : String, t.uri = some u → u ≠ "" →
      (hasPre u api_v1_pre = true →
        get_clean_endpoint tools i = .ok (dropPre u api_v1_pre)) ∧
      (hasPre u api_v1_pre = false →
        get_clean_endpoint tools i = .ok (lstripSlashes u))) ∧
    (t.uri = none →
      get_clean_endpoint tools i =
        .error ("API URI not found for endpoint: " ++ fstr i.tool_call)) ∧
    (t.uri = some "" →
      get_clean_endpoint tools i =
        .error ("API URI not found for endpoint: " ++ fstr i.tool_call)) := by
  refine ⟨?_, ?_, ?_⟩
  · intro u hu hu2
    constructor
    · intro hp; simp [get_clean_endpoint, hfind, hu, hu2, hp]
    · intro hp; simp [get_clean_endpoint, hfind, hu, hu2, hp]
  · intro hu; simp [get_clean_endpoint, hfind, hu]
  · intro hu; simp [get_clean_endpoint, hfind, hu]

/-- C8 witness: both stripping behaviors at concrete tools — division prefix
stripped for `invoices`, all leading slashes stripped for `bulk`. -/
theorem c8_witness :
    get_clean_endpoint [invoicesTool] (Intent.mk (some "invoices") none [] true) =
      .ok (dropPre "/api/v1/{division}/crm/Invoices" api_v1_pre) ∧
    get_clean_endpoint [bulkTool] (Intent.mk (some "bulk") none [] true) =
      .ok (lstripSlashes "//bulk/Documents") :=
  ⟨((c8_path_resolution [invoicesTool] (Intent.mk (some "invoices") none [] true)
      invoicesTool rfl).1 "/api/v1/{division}/crm/Invoices" rfl (by decide)).1 rfl,
   ((c8_path_resolution [bulkTool] (Intent.mk (some "bulk") none [] true)
      bulkTool rfl).1 "//bulk/Documents" rfl (by decide)).2 rfl⟩

end AskExact
